import Mathlib

/-!
Shallow embedding of the medical-clinic chatbot notebook
(`06_OpenSource_examples/02_Langchain_Chatbot_examples/00_medibot_V3_prompts.ipynb`).

The notebook wires together: a converse-API client wrapper
(`invoke_meta_converse`), LangChain chat prompt templates (the zero-shot
pirate prompt and the few-shot `final_prompt`), a semantic-similarity
example selector over a fixed four-example set (FAISS, k = 1), and a
word-wrapping print helper (`print_ww`).  Pure computations are embedded
as Lean functions; the remote model and embedding calls are parameters of
type `... → Except PyErr ...`; Python exceptions are `Except` errors.
-/

namespace Medibot

/-- Error taxonomy of the pipeline: template formatting failures, embedding
service failures, model-endpoint failures, throttling, and list-index
errors, mirroring the exceptions the notebook's stages can raise. -/
inductive PyErr where
  | templateError
  | embeddingServiceError
  | serviceError
  | rateLimitError
  | indexError
deriving DecidableEq, Repr

/-- Message roles used by the chat templates and the converse API. -/
inductive Role where
  | system
  | user
  | assistant
deriving DecidableEq, Repr

/-- A role-tagged chat message, the unit produced by prompt formatting. -/
structure Message where
  role : Role
  text : String
deriving DecidableEq, Repr

/-- One piece of a template string: either literal text or a `\x7bname\x7d`
placeholder to be substituted from the input variables. -/
inductive Part where
  | lit (s : String)
  | var (name : String)
deriving DecidableEq, Repr

/-- Formats one template part against the variable assignment; a missing
variable raises a template error, as Python `format` raises `KeyError`. -/
def formatPart (vars : List (String × String)) : Part → Except PyErr String
  | .lit s => .ok s
  | .var n =>
    match vars.lookup n with
    | some v => .ok v
    | none => .error .templateError

/-- Formats a whole template string (a list of parts) by concatenating the
formatted parts. -/
def formatParts (vars : List (String × String)) : List Part → Except PyErr String
  | [] => .ok ""
  | [p] => formatPart vars p
  | p :: ps => do
    let s ← formatPart vars p
    let rest ← formatParts vars ps
    return s ++ rest

/-- A `ChatPromptTemplate.from_messages` template: an ordered list of
(role, template string) pairs. -/
def ChatTemplate := List (Role × List Part)

/-- Formats every (role, template) pair of a chat template against the
variables, in order, producing the message sequence. -/
def formatTemplate (vars : List (String × String)) (tmpl : ChatTemplate) :
    Except PyErr (List Message) :=
  tmpl.mapM fun rp => (formatParts vars rp.2).map fun s => Message.mk rp.1 s

/-- A few-shot example: an (input text, output template text) pair, as the
notebook's `examples` dicts with keys "input" and "output". -/
structure Example where
  input : String
  output : String
deriving DecidableEq, Repr

/-- The fixed four-example set loaded by the notebook. -/
def examples : List Example :=
  [⟨"What is the weather in New York city?",
    "Respond using professional weatherman terminology:\n"⟩,
   ⟨"Tell me a joke",
    "Respond as if you were a famous comedian that likes to joke about farm animals:\n"⟩,
   ⟨"Give me book recommendations",
    "Respond as if you are a mistery novels fan:\n"⟩,
   ⟨"There is something wrong with my computer",
    "Respond as if you are a former pirate turned IT repair expert:\n"⟩]

/-- The text vectorized for an example at load time:
`" ".join(example.values())`, i.e. the input and output joined by a space. -/
def to_vectorize (e : Example) : String :=
  String.intercalate " " [e.input, e.output]

/-- Squared Euclidean distance between two embedding vectors, the metric of
the FAISS index built by `FAISS.from_texts` (default L2). -/
def sqDist (u v : List ℤ) : ℤ :=
  (u.zipWith (fun a b => (a - b) * (a - b)) v).sum

/-- Inserts an example into a list sorted by ascending distance. -/
def insertByDist (d : Example → ℤ) (e : Example) : List Example → List Example
  | [] => [e]
  | x :: xs => if d e < d x then e :: x :: xs else x :: insertByDist d e xs

/-- Sorts examples by ascending distance (insertion sort). -/
def sortByDist (d : Example → ℤ) : List Example → List Example
  | [] => []
  | x :: xs => insertByDist d x (sortByDist d xs)

/-- The semantic-similarity selector: embeds each example's vectorized text
and the query, ranks the example set by distance to the query embedding,
and returns the top k, as `SemanticSimilarityExampleSelector` over the
FAISS store does. -/
def select_examples (embed : String → List ℤ) (exs : List Example) (k : ℕ)
    (query : String) : List Example :=
  (sortByDist (fun e => sqDist (embed (to_vectorize e)) (embed query)) exs).take k

/-- Modelled from the spec: the `amazon.titan-embed-text-v1` embedding call
is a remote service whose code is not in this repository.  These vectors
reproduce the similarity ordering observed in the reference run recorded
in the notebook, where the query "Is it hot out?" is nearest to the
computer-repair example. -/
def titanEmbed (s : String) : List ℤ :=
  if s = "Is it hot out?" then [29]
  else if s = to_vectorize (examples.get ⟨0, by decide⟩) then [0]
  else if s = to_vectorize (examples.get ⟨1, by decide⟩) then [10]
  else if s = to_vectorize (examples.get ⟨2, by decide⟩) then [20]
  else if s = to_vectorize (examples.get ⟨3, by decide⟩) then [30]
  else [100]

/-- The zero-shot pirate prompt template of the `pirate_chain`. -/
def pirate_prompt : ChatTemplate :=
  [(Role.system, [Part.lit "You are a pirate. Answer the following questions as best you can."]),
   (Role.user, [Part.var "input"])]

/-- The system instruction of the few-shot `final_prompt`. -/
def system_instruction : String :=
  "You curtain your answer based on the examples provided"

/-- The `example_prompt` of the `FewShotChatMessagePromptTemplate`: each
selected example becomes a human message from its input and an AI message
from its output. -/
def example_prompt : ChatTemplate :=
  [(Role.user, [Part.var "input"]), (Role.assistant, [Part.var "output"])]

/-- The variable assignment an example supplies to `example_prompt`. -/
def example_values (e : Example) : List (String × String) :=
  [("input", e.input), ("output", e.output)]

/-- Renders the selected examples through `example_prompt`, two messages
per example, concatenated in order. -/
def few_shot_format (selected : List Example) : Except PyErr (List Message) := do
  let msgss ← selected.mapM fun e => formatTemplate (example_values e) example_prompt
  return msgss.flatten

/-- Formats the few-shot `final_prompt` for one invocation: the system
instruction, then the examples returned by the selector for the current
input, then the current input as the final human message.  The selector is
a parameter because it performs a remote embedding call and may fail. -/
def final_prompt_invoke (selector : String → Except PyErr (List Example))
    (vars : List (String × String)) : Except PyErr (List Message) := do
  let sysText ← formatParts vars [Part.lit system_instruction]
  let input ← formatPart vars (Part.var "input")
  let selected ← selector input
  let fewShot ← few_shot_format selected
  let lastText ← formatParts vars [Part.var "input"]
  return Message.mk Role.system sysText :: (fewShot ++ [Message.mk Role.user lastText])

/-- The model's reply object, of which the chain reads `.content`. -/
structure AIMessage where
  content : String
deriving DecidableEq, Repr

/-- The composed chain `final_prompt | bedrock_llm`: formats the prompt,
then invokes the model on the resulting message sequence. -/
def chain_invoke (selector : String → Except PyErr (List Example))
    (model : List Message → Except PyErr AIMessage)
    (vars : List (String × String)) : Except PyErr AIMessage := do
  let msgs ← final_prompt_invoke selector vars
  model msgs

/-- One content block of a converse-API message, carrying a text field. -/
structure ContentBlock where
  text : String
deriving DecidableEq, Repr

/-- A converse-API message: a role and a list of content blocks, the shape
of the dicts in `messages_list`. -/
structure ApiMessage where
  role : Role
  content : List ContentBlock
deriving DecidableEq, Repr

/-- The generation parameters of the `inferenceConfig` dict. -/
structure InferenceConfig where
  temperature : ℚ
  maxTokens : ℕ
  topP : ℚ
deriving DecidableEq, Repr

/-- The outbound request `boto3_bedrock.converse` is called with. -/
structure ConverseRequest where
  messages : List ApiMessage
  modelId : String
  inferenceConfig : InferenceConfig
deriving DecidableEq, Repr

/-- The `output` field of a converse response, wrapping the reply message. -/
structure ConverseOutput where
  message : ApiMessage
deriving DecidableEq, Repr

/-- The latency metadata of a converse response. -/
structure ConverseMetrics where
  latencyMs : ℕ
deriving DecidableEq, Repr

/-- The token-usage metadata of a converse response. -/
structure ConverseUsage where
  inputTokens : ℕ
  outputTokens : ℕ
deriving DecidableEq, Repr

/-- A converse-API response: the output message plus usage and latency
metadata. -/
structure ConverseResponse where
  output : ConverseOutput
  metrics : ConverseMetrics
  usage : ConverseUsage
deriving DecidableEq, Repr

/-- The request `invoke_meta_converse` builds for a prompt string: a single
user message holding the prompt, the Llama 3 model id, and the hardcoded
inference configuration. -/
def metaConverseRequest (prompt_str : String) : ConverseRequest :=
  { messages := [⟨Role.user, [⟨prompt_str⟩]⟩],
    modelId := "meta.llama3-8b-instruct-v1:0",
    inferenceConfig := { temperature := 1/2, maxTokens := 100, topP := 9/10 } }

/-- Extraction of `response.output.message.content[0].text`; indexing an
empty content list raises, as Python's `[0]` would. -/
def extractText (response : ConverseResponse) : Except PyErr String :=
  match response.output.message.content with
  | [] => .error .indexError
  | c :: _ => .ok c.text

/-- The converse-API wrapper `invoke_meta_converse`: sends the built
request through the client and returns the text of the first content
block of the response's output message.  The client is a parameter since
it performs the remote call and may fail. -/
def invoke_meta_converse (prompt_str : String)
    (boto3_bedrock : ConverseRequest → Except PyErr ConverseResponse) :
    Except PyErr String :=
  (boto3_bedrock (metaConverseRequest prompt_str)).bind extractText

/-- Where `sys.stdout` currently points: the real stream or the `StringIO`
buffer `print_ww` temporarily installs. -/
inductive OutStream where
  | real
  | buffer
deriving DecidableEq, Repr

/-- The process state `print_ww` manipulates: the current `sys.stdout`. -/
structure SysState where
  stdout : OutStream
deriving DecidableEq, Repr

/-- Greedy word wrap of one line to the given width, the behaviour of
`textwrap.wrap`. -/
def wrapLine (width : ℕ) (line : String) : List String :=
  let words := (line.splitOn " ").filter (fun w => w ≠ "")
  let step : List String × String → String → List String × String := fun ac w =>
    if ac.2 = "" then (ac.1, w)
    else if ac.2.length + 1 + w.length ≤ width then (ac.1, ac.2 ++ " " ++ w)
    else (ac.1 ++ [ac.2], w)
  let fin := words.foldl step ([], "")
  if fin.2 = "" then fin.1 else fin.1 ++ [fin.2]

/-- The wrapping printer `print_ww`: saves `sys.stdout`, redirects it to a
buffer, runs the wrapped `print` (modelled by `printResult`, which may
raise), and restores `sys.stdout` in a `finally` block; on success the
buffered output is split into lines and word-wrapped.  Returns the wrapped
lines (or the propagated error) together with the final process state. -/
def print_ww (printResult : Except PyErr String) (width : ℕ)
    (s : SysState) : Except PyErr (List String) × SysState :=
  let saved := s.stdout
  let redirected : SysState := { s with stdout := OutStream.buffer }
  match printResult with
  | .error e => (.error e, { redirected with stdout := saved })
  | .ok output =>
    let restored : SysState := { redirected with stdout := saved }
    let wrapped := (output.splitOn "\n").map fun line =>
      String.intercalate "\n" (wrapLine width line)
    (.ok wrapped, restored)

theorem length_insertByDist (d : Example → ℤ) (e : Example) (l : List Example) :
    (insertByDist d e l).length = l.length + 1 := by
  induction l with
  | nil => rfl
  | cons x xs ih =>
    unfold insertByDist
    split
    · simp
    · simp [ih]

theorem length_sortByDist (d : Example → ℤ) (l : List Example) :
    (sortByDist d l).length = l.length := by
  induction l with
  | nil => rfl
  | cons x xs ih => simp [sortByDist, length_insertByDist, ih]

/-- C1: for every current user input and every selected example, formatting
`final_prompt` yields exactly the four messages: the system instruction,
the example's input as a user message, the example's output as an
assistant message, and the current input as the final user message. -/
theorem final_prompt_four_messages (ex : Example) (input : String) :
    final_prompt_invoke (fun _ => .ok [ex]) [("input", input)] =
      .ok [Message.mk Role.system system_instruction,
           Message.mk Role.user ex.input,
           Message.mk Role.assistant ex.output,
           Message.mk Role.user input] := rfl

/-- C2: any error raised by a stage of the composed chain — the example
selector (embedding call), the prompt assembly, or the model call —
propagates unmodified to the caller, with no fallback value produced. -/
theorem chain_error_propagation (selector : String → Except PyErr (List Example))
    (model : List Message → Except PyErr AIMessage) (input : String) (e : PyErr) :
    (selector input = .error e →
      chain_invoke selector model [("input", input)] = .error e) ∧
    (final_prompt_invoke selector [("input", input)] = .error e →
      chain_invoke selector model [("input", input)] = .error e) ∧
    (∀ msgs, final_prompt_invoke selector [("input", input)] = .ok msgs →
      model msgs = .error e →
      chain_invoke selector model [("input", input)] = .error e) := by
  refine ⟨fun h => ?_, fun h => ?_, fun msgs h₁ h₂ => ?_⟩
  · have hred : chain_invoke selector model [("input", input)] =
        ((selector input >>= fun selected =>
          few_shot_format selected >>= fun fewShot =>
            pure (Message.mk Role.system system_instruction ::
              (fewShot ++ [Message.mk Role.user input]))) >>= model) := rfl
    rw [hred, h]
    rfl
  · unfold chain_invoke
    rw [h]
    rfl
  · unfold chain_invoke
    rw [h₁]
    exact h₂

/-- C2 witness: a chain whose selector fails with a service error returns
exactly that error. -/
theorem chain_error_propagation_witness :
    chain_invoke (fun _ => .error PyErr.serviceError) (fun _ => .ok ⟨"ok"⟩)
      [("input", "Is it hot out?")] = .error PyErr.serviceError :=
  (chain_error_propagation (fun _ => .error PyErr.serviceError)
    (fun _ => .ok ⟨"ok"⟩) "Is it hot out?" PyErr.serviceError).1 rfl

/-- C3: the outbound converse request built by `invoke_meta_converse`
carries exactly temperature 0.5, maxTokens 100, and topP 0.9. -/
theorem invoke_meta_converse_config (prompt_str : String) :
    (metaConverseRequest prompt_str).inferenceConfig =
      { temperature := 1/2, maxTokens := 100, topP := 9/10 } := rfl

/-- C4: whenever the client returns a response whose output message has a
first content block, `invoke_meta_converse` returns exactly that block's
text. -/
theorem invoke_meta_converse_extracts (prompt_str : String)
    (client : ConverseRequest → Except PyErr ConverseResponse)
    (resp : ConverseResponse) (c : ContentBlock) (rest : List ContentBlock)
    (h₁ : client (metaConverseRequest prompt_str) = .ok resp)
    (h₂ : resp.output.message.content = c :: rest) :
    invoke_meta_converse prompt_str client = .ok c.text := by
  unfold invoke_meta_converse
  rw [h₁]
  show extractText resp = .ok c.text
  unfold extractText
  rw [h₂]

/-- A sample converse response used to instantiate theorems with
hypotheses at a concrete input. -/
def sampleResponse : ConverseResponse :=
  { output := { message := { role := Role.assistant, content := [⟨"It is a branch of physics"⟩] } },
    metrics := { latencyMs := 1335 },
    usage := { inputTokens := 58, outputTokens := 100 } }

/-- C4 witness: at a concrete client and response, the adapter returns the
first content block's text. -/
theorem invoke_meta_converse_extracts_witness :
    invoke_meta_converse "what is quantum mechanics" (fun _ => .ok sampleResponse) =
      .ok "It is a branch of physics" :=
  invoke_meta_converse_extracts "what is quantum mechanics"
    (fun _ => .ok sampleResponse) sampleResponse
    ⟨"It is a branch of physics"⟩ [] rfl rfl

/-- C5: with embeddings reproducing the reference run's similarity
ordering, the selector called on "Is it hot out?" returns the example
whose output is the pirate IT-repair template. -/
theorem select_examples_hot_out :
    select_examples titanEmbed examples 1 "Is it hot out?" =
      [⟨"There is something wrong with my computer",
        "Respond as if you are a former pirate turned IT repair expert:\n"⟩] := by
  decide

/-- C6: for every embedding function and every query, the selector over
the fixed four-example set with k = 1 returns exactly one example. -/
theorem select_examples_length_one (embed : String → List ℤ) (query : String) :
    (select_examples embed examples 1 query).length = 1 := by
  simp [select_examples, length_sortByDist, examples]

/-- C7: for every user input, formatting the zero-shot pirate prompt
yields exactly the two messages system instruction then user input. -/
theorem pirate_prompt_two_messages (input : String) :
    formatTemplate [("input", input)] pirate_prompt =
      .ok [Message.mk Role.system
             "You are a pirate. Answer the following questions as best you can.",
           Message.mk Role.user input] := rfl

/-- C8: the prompt assembler is deterministic: two invocations with the
same selector and the same variables produce identical results. -/
theorem final_prompt_deterministic (selector : String → Except PyErr (List Example))
    (vars : List (String × String)) (r₁ r₂ : Except PyErr (List Message))
    (h₁ : final_prompt_invoke selector vars = r₁)
    (h₂ : final_prompt_invoke selector vars = r₂) : r₁ = r₂ := by
  rw [← h₁, ← h₂]

/-- C8 witness: determinism instantiated at a concrete selector and
input. -/
theorem final_prompt_deterministic_witness :
    final_prompt_invoke (fun _ => .ok []) [("input", "hi")] =
      final_prompt_invoke (fun _ => .ok []) [("input", "hi")] :=
  final_prompt_deterministic (fun _ => .ok []) [("input", "hi")]
    (final_prompt_invoke (fun _ => .ok []) [("input", "hi")])
    (final_prompt_invoke (fun _ => .ok []) [("input", "hi")]) rfl rfl

/-- C9: the text vectorized for an example is its input and output joined
by a space, and therefore the selector's ranking can depend on the output
template text: changing only an example's output can change which example
is selected. -/
theorem to_vectorize_ranking :
    (∀ e : Example, to_vectorize e = e.input ++ " " ++ e.output) ∧
    (∃ (embed : String → List ℤ) (e₁ e₂ e₂' : Example) (q : String),
      e₂.input = e₂'.input ∧ e₂.output ≠ e₂'.output ∧
      select_examples embed [e₁, e₂] 1 q ≠ select_examples embed [e₁, e₂'] 1 q) := by
  refine ⟨fun e => rfl, ?_⟩
  refine ⟨fun s => if s = "b y" then [1] else if s = "b z" then [100] else
      if s = "q" then [0] else [50],
    ⟨"a", "x"⟩, ⟨"b", "y"⟩, ⟨"b", "z"⟩, "q", rfl, by decide, by decide⟩

/-- C10: every call to `print_ww` leaves `sys.stdout` as it found it,
whether the wrapped print succeeds or raises, because restoration happens
in the `finally` block. -/
theorem print_ww_restores_stdout (printResult : Except PyErr String)
    (width : ℕ) (s : SysState) :
    (print_ww printResult width s).2.stdout = s.stdout := by
  cases printResult <;> rfl

end Medibot
